import Mathlib

/-!
The header `demo/demo.h` of microui-zig: its text and what it denotes.

The repository fragment is the single header `demo/demo.h` (18 lines): an
include guard, five `#include` lines and three function prototypes.  It has
no function body, so what there is to embed is

* the header itself, kept verbatim as `demo_h : List String` (one entry per
  source line), and
* the meaning the C translation phases give to that text, in the fragment the
  header uses: splitting a line into tokens (`lex`), sorting lines into
  directives and declarations (`classify`), reading a prototype
  (`parseProto`), and running the conditional-inclusion directives over a
  table of defined names (`expand`, `step`, `run`, `includeFile`).

Everything below the definition of `demo_h` is computed from that text.

Defined names are object-like: a table entry is a name with its replacement
list, and the names in a text line are replaced before the line is passed
on.  The five included files are not part of the fragment: an `#include` is
passed on as an unexpanded item, and whether the file can be included and
what it does to the table of defined names is a parameter (`Headers`).

Limits of the model, all outside what the header contains: a line is read on
its own (the header writes each directive and each prototype on one line);
comments, string literals, function-like definitions, `#define` with a
replacement list and conditional directives other than `#ifndef` / `#endif`
are not interpreted.
-/

namespace Demo

/-! ## The source text -/

/-- The text of `demo/demo.h`, one string per source line, in order. -/
def demo_h : List String :=
  [ "#ifndef DEMO_H",
    "#define DEMO_H",
    "",
    "#include <string.h>",
    "#include <stdio.h>",
    "",
    "#include <SDL2/SDL.h>",
    "",
    "#include <microui.h>",
    "",
    "",
    "#include \"renderer.h\"",
    "",
    "void test_window(mu_Context *ctx, float bg[3]);",
    "void style_window(mu_Context *ctx);",
    "void log_window(mu_Context *ctx);",
    "",
    "#endif" ]

/-! ## Tokens -/

/-- Characters that make up identifiers and numbers. -/
def isIdentChar (c : Char) : Bool := c.isAlphanum || c == '_'

/-- Close the word being read (held reversed in `cur`), if there is one. -/
def flushWord (cur : List Char) (acc : List String) : List String :=
  match cur with
  | [] => acc
  | _ :: _ => String.mk cur.reverse :: acc

/-- Tokeniser loop: words of identifier characters, white space dropped, every
other character a token of its own. -/
def lexAux : List Char → List Char → List String → List String
  | [], cur, acc => (flushWord cur acc).reverse
  | c :: cs, cur, acc =>
    if isIdentChar c then lexAux cs (c :: cur) acc
    else if c.isWhitespace then lexAux cs [] (flushWord cur acc)
    else lexAux cs [] (String.singleton c :: flushWord cur acc)

/-- The tokens of one source line. -/
def lex (s : String) : List String := lexAux s.data [] []

/-- An identifier: a letter or underscore, then identifier characters. -/
def isIdent (t : String) : Bool :=
  match t.data with
  | [] => false
  | c :: cs => (c.isAlpha || c == '_') && cs.all isIdentChar

/-- Decimal value of a run of digits. -/
def digitsToNat : List Char → Nat → Option Nat
  | [], acc => some acc
  | c :: cs, acc =>
    if c.isDigit then digitsToNat cs (10 * acc + (c.toNat - 48)) else none

/-- A decimal integer constant. -/
def parseNat (t : String) : Option Nat :=
  match t.data with
  | [] => none
  | c :: cs => digitsToNat (c :: cs) 0

/-! ## Declarations -/

/-- A type as the header writes it: the specifier and qualifier words
(`void`, `float`, `mu_Context`, `const`, ...) and the number of `*` after
them. -/
structure CType where
  spec : List String
  ptr : Nat
  deriving DecidableEq

/-- A function parameter: its type, its name, and the bound of its array
declarator (`bg[3]` has `some 3`) when it has one. -/
structure Param where
  ty : CType
  name : String
  array : Option Nat
  deriving DecidableEq

/-- A function prototype: return type, name, parameters. -/
structure FunDecl where
  ret : CType
  name : String
  params : List Param
  deriving DecidableEq

/-- The type `void` (not a pointer to it). -/
def CType.void : CType := ⟨["void"], 0⟩

/-- The type `mu_Context *`. -/
def CType.ctxPtr : CType := ⟨["mu_Context"], 1⟩

/-- The type carries a `const` qualifier. -/
def CType.isConst (t : CType) : Bool := t.spec.contains "const"

/-- The callee reaches storage of the caller through this parameter: it is a
pointer or an array (which C passes as a pointer to its first element). -/
def Param.byReference (p : Param) : Bool := decide (0 < p.ty.ptr) || p.array.isSome

/-- The callee may write through the parameter: it is passed by reference and
the pointed-to type is not `const`. -/
def Param.mutableByCallee (p : Param) : Bool := p.byReference && !p.ty.isConst

/-- Read `spec+ '*'*`. -/
def parseType (toks : List String) : Option CType :=
  let spec := toks.takeWhile isIdent
  let stars := toks.dropWhile isIdent
  if !spec.isEmpty && stars.all (· == "*") then some ⟨spec, stars.length⟩ else none

/-- Read `type name`: the last token is the declared name. -/
def parseNamed (toks : List String) : Option (CType × String) :=
  match toks.reverse with
  | [] => none
  | name :: revTy =>
    if isIdent name then
      match parseType revTy.reverse with
      | some ty => some (ty, name)
      | none => none
    else none

/-- Split a trailing `[n]` off a parameter declarator. -/
def splitArray (toks : List String) : Option (List String × Option Nat) :=
  match toks.reverse with
  | "]" :: n :: "[" :: rest =>
    match parseNat n with
    | some k => some (rest.reverse, some k)
    | none => none
  | _ => some (toks, none)

/-- Read one parameter declaration. -/
def parseParam (toks : List String) : Option Param :=
  match splitArray toks with
  | none => none
  | some (rest, arr) =>
    match parseNamed rest with
    | some (ty, name) => some ⟨ty, name, arr⟩
    | none => none

/-- Cut a token list at its commas. -/
def splitOnComma : List String → List (List String)
  | [] => [[]]
  | t :: ts =>
    match splitOnComma ts with
    | [] => [[t]]
    | g :: gs => if t == "," then [] :: g :: gs else (t :: g) :: gs

/-- All results, or `none` if one is missing. -/
def allSome {α : Type} : List (Option α) → Option (List α)
  | [] => some []
  | none :: _ => none
  | some a :: rest =>
    match allSome rest with
    | some as => some (a :: as)
    | none => none

/-- Read a parameter list (the tokens between the parentheses). -/
def parseParams (toks : List String) : Option (List Param) :=
  if toks.isEmpty || toks == ["void"] then some []
  else allSome ((splitOnComma toks).map parseParam)

/-- Read a function prototype `type name ( params ) ;`.  A line with a body
(braces) or nested parentheses is not a prototype. -/
def parseProto (toks : List String) : Option FunDecl :=
  match toks.dropWhile (· != "(") with
  | "(" :: rest =>
    match rest.reverse with
    | ";" :: ")" :: revParams =>
      if revParams.any (fun t => t == "(" || t == ")" || t == "\x7b" || t == "\x7d") then none
      else
        match parseNamed (toks.takeWhile (· != "(")), parseParams revParams.reverse with
        | some (ret, name), some ps => some ⟨ret, name, ps⟩
        | _, _ => none
    | _ => none
  | _ => none

/-! ## Lines -/

/-- What a source line is, once tokenised. -/
inductive Line where
  /-- An empty line. -/
  | blank
  /-- The directive `#ifndef name`. -/
  | ifndef (name : String)
  /-- The directive `#define name`, with an empty replacement list. -/
  | define (name : String)
  /-- The directive `#endif`. -/
  | endif
  /-- The directive `#include <file>` (`system = true`) or `#include "file"`. -/
  | include (system : Bool) (file : String)
  /-- A function prototype. -/
  | proto (d : FunDecl)
  /-- Any other text line: a definition, a body, a typedef, ... -/
  | other (toks : List String)
  /-- Any other directive; the model does not interpret it. -/
  | unsupported (toks : List String)
  deriving DecidableEq

/-- Read the file name of an `#include`, given the tokens after the opening
delimiter and the expected closing one. -/
def headerName (close : String) (toks : List String) : Option String :=
  match toks.reverse with
  | [] => none
  | last :: revName =>
    if last == close && !revName.isEmpty then some (String.join revName.reverse) else none

/-- Sort a tokenised line into its kind. -/
def classify (toks : List String) : Line :=
  match toks with
  | [] => .blank
  | "#" :: rest =>
    match rest with
    | ["ifndef", n] => if isIdent n then .ifndef n else .unsupported toks
    | ["define", n] => if isIdent n then .define n else .unsupported toks
    | ["endif"] => .endif
    | "include" :: "<" :: name =>
      match headerName ">" name with
      | some f => .include true f
      | none => .unsupported toks
    | "include" :: "\"" :: name =>
      match headerName "\"" name with
      | some f => .include false f
      | none => .unsupported toks
    | _ => .unsupported toks
  | _ =>
    match parseProto toks with
    | some d => .proto d
    | none => .other toks

/-- The lines of a header. -/
def parseHeader (src : List String) : List Line := src.map (fun l => classify (lex l))

/-- The function prototypes written in a header, in order. -/
def declaredFunctions (src : List String) : List FunDecl :=
  (parseHeader src).filterMap (fun l => match l with | .proto d => some d | _ => none)

/-- A token that opens or closes a compound statement or initialiser. -/
def isBrace (t : String) : Bool := t == "\x7b" || t == "\x7d"

/-- The line is empty, an `#include`, or a function prototype. -/
def Line.declarative : Line → Bool
  | .blank => true
  | .include _ _ => true
  | .proto _ => true
  | _ => false

/-! ## Conditional inclusion -/

/-- What an inclusion hands on to the rest of the translation unit. -/
inductive Item where
  /-- The contents of an included file, left unexpanded. -/
  | include (system : Bool) (file : String)
  /-- A function declaration. -/
  | decl (d : FunDecl)
  /-- Other program text. -/
  | text (toks : List String)
  deriving DecidableEq

/-- The names defined at a point of the translation unit, each with its
replacement list (object-like definitions); the latest definition comes
first. -/
abbrev Table := List (String × List String)

/-- The names a table defines. -/
def names (t : Table) : List String := t.map Prod.fst

/-- The replacement list of a name, when it is defined. -/
def lookup : Table → String → Option (List String)
  | [], _ => none
  | (m, body) :: rest, n => if m == n then some body else lookup rest n

/-- Replace one token: a defined name gives way to its replacement list, which
is scanned again with that name set aside (`hidden`), so a name is never
replaced inside its own replacement.  Each level sets aside one more defined
name, so a budget of `t.length` levels is never used up. -/
def expandTok : Nat → Table → List String → String → List String
  | 0, _, _, tok => [tok]
  | fuel + 1, t, hidden, tok =>
    if hidden.contains tok then [tok]
    else
      match lookup t tok with
      | none => [tok]
      | some body => body.flatMap (expandTok fuel t (tok :: hidden))

/-- Replace the defined names in a text line. -/
def expand (t : Table) (toks : List String) : List String :=
  toks.flatMap (expandTok t.length t [])

/-- What a text line contributes once the defined names are replaced: a
function declaration if it then reads as a prototype, other text if not. -/
def itemOf (toks : List String) : Item :=
  match parseProto toks with
  | some d => .decl d
  | none => .text toks

/-- The effect that including a file by name has on the table of defined
names, or `none` when the file cannot be included (it is not found, or
translating it fails).  The five files `demo.h` includes are not part of the
fragment, so their effect is a parameter. -/
abbrev Headers := String → Table → Option Table

/-- Preprocessor state: the table of defined names, the stack of open
conditionals (`true` when the group under it is kept), and the items passed
on so far. -/
structure PP where
  defined : Table
  conds : List Bool
  out : List Item
  deriving DecidableEq

/-- Lines are being kept: every open conditional holds. -/
def PP.live (st : PP) : Bool := st.conds.all id

/-- The lines of a header as the preprocessor reads them: the tokens of each
line and its kind. -/
def readLines (src : List String) : List (List String × Line) :=
  src.map (fun l => (lex l, classify (lex l)))

/-- Process one line.  Directives other than `#endif` and `#ifndef` act only
in a kept group, and so does text, whose defined names are replaced before it
is passed on.  `none` is a line that cannot be processed: an `#endif`
without an open conditional, an `#include` that fails, a directive outside
the fragment. -/
def step (env : Headers) (st : PP) (line : List String × Line) : Option PP :=
  match line.2 with
  | .blank => some st
  | .ifndef n => some { st with conds := (!decide (n ∈ names st.defined)) :: st.conds }
  | .define n => some (if st.live then { st with defined := (n, []) :: st.defined } else st)
  | .endif =>
    match st.conds with
    | [] => none
    | _ :: cs => some { st with conds := cs }
  | .include sys f =>
    if st.live then
      (env f st.defined).map
        (fun t => { st with defined := t, out := st.out ++ [Item.include sys f] })
    else some st
  | .proto _ =>
    some (if st.live then { st with out := st.out ++ [itemOf (expand st.defined line.1)] }
      else st)
  | .other _ =>
    some (if st.live then { st with out := st.out ++ [itemOf (expand st.defined line.1)] }
      else st)
  | .unsupported _ => none

/-- Process the lines of a file in order. -/
def run (env : Headers) : List (List String × Line) → PP → Option PP
  | [], st => some st
  | l :: ls, st => (step env st l).bind (run env ls)

/-- Include a file once, in a translation unit where `defined` is the table
of defined names: the table afterwards and the items contributed.  `none` if
a line cannot be processed or a conditional is left open at the end. -/
def includeFile (env : Headers) (src : List String) (defined : Table) :
    Option (Table × List Item) :=
  (run env (readLines src) ⟨defined, [], []⟩).bind
    (fun st => if st.conds.isEmpty then some (st.defined, st.out) else none)

/-- The function declarations among a list of items. -/
def declsOf (items : List Item) : List FunDecl :=
  items.filterMap (fun i => match i with | .decl d => some d | _ => none)

/-- Included files that are found and have no effect on the table. -/
def inertHeaders : Headers := fun _ t => some t

/-- The function hands a value back to its caller. -/
def FunDecl.returnsValue (d : FunDecl) : Bool := d.ret != CType.void

/-! ## The header, read -/

/-- A line that carries a body is not read as a prototype, and a `#define`
with a replacement list is outside the fragment. -/
theorem classify_rejects :
    classify (lex "void log_window(mu_Context *ctx) \x7b \x7d")
        = Line.other ["void", "log_window", "(", "mu_Context", "*", "ctx", ")", "\x7b", "\x7d"]
    ∧ classify (lex "#define DEMO_H 1") = Line.unsupported ["#", "define", "DEMO_H", "1"] := by
  decide

/-- Names defined before the inclusion are replaced in the declarations the
header contributes: with `test_window` defined as `demo_test_window`, that is
the first function declared. -/
theorem includeFile_replaces :
    (includeFile inertHeaders demo_h [("test_window", ["demo_test_window"])]).map
        (fun r => (declsOf r.2).map FunDecl.name)
      = some ["demo_test_window", "style_window", "log_window"] := by
  decide

/-! ## The claims -/

/-- C1: the header declares exactly the three functions `test_window`,
`style_window` and `log_window`, with the parameter lists
`(mu_Context *ctx, float bg[3])`, `(mu_Context *ctx)` and `(mu_Context *ctx)`;
no line of it holds a brace (there is no function body); and between the two
opening lines of the include guard and its closing line every line is blank,
an `#include` or a prototype. -/
theorem demo_h_public_interface :
    declaredFunctions demo_h =
      [ ⟨⟨["void"], 0⟩, "test_window",
          [⟨⟨["mu_Context"], 1⟩, "ctx", none⟩, ⟨⟨["float"], 0⟩, "bg", some 3⟩]⟩,
        ⟨⟨["void"], 0⟩, "style_window", [⟨⟨["mu_Context"], 1⟩, "ctx", none⟩]⟩,
        ⟨⟨["void"], 0⟩, "log_window", [⟨⟨["mu_Context"], 1⟩, "ctx", none⟩]⟩ ]
    ∧ (∀ l ∈ demo_h, ∀ t ∈ lex l, isBrace t = false)
    ∧ (∃ body, parseHeader demo_h
          = Line.ifndef "DEMO_H" :: Line.define "DEMO_H" :: (body ++ [Line.endif])
        ∧ ∀ l ∈ body, l.declarative = true) :=
  ⟨by decide, by decide, ⟨((parseHeader demo_h).drop 2).dropLast, by decide, by decide⟩⟩

/-- C2: the functions the header declares are `test_window`, `style_window`
and `log_window`, and each of them has return type `void` (not a pointer to
`void`), so none hands a value, and hence no failure indication, back to its
caller. -/
theorem demo_h_all_return_void :
    (declaredFunctions demo_h).map FunDecl.name
        = ["test_window", "style_window", "log_window"]
    ∧ (∀ d ∈ declaredFunctions demo_h, d.ret = CType.void)
    ∧ (∀ d ∈ declaredFunctions demo_h, d.returnsValue = false) := by
  decide

/-- C3: `test_window` takes the context `ctx` of type `mu_Context *` and
then `bg`, declared as an array of 3 `float` without `const`, so the callee
may write the caller's elements; `style_window` and `log_window` take the
context alone; hence over the three declarations every parameter that is not
the `mu_Context *` is the `bg` of `test_window`. -/
theorem demo_h_caller_state :
    (declaredFunctions demo_h).map (fun d => (d.name, d.params)) =
      [ ("test_window", [⟨CType.ctxPtr, "ctx", none⟩, ⟨⟨["float"], 0⟩, "bg", some 3⟩]),
        ("style_window", [⟨CType.ctxPtr, "ctx", none⟩]),
        ("log_window", [⟨CType.ctxPtr, "ctx", none⟩]) ]
    ∧ (∀ d ∈ declaredFunctions demo_h, ∀ p ∈ d.params,
        p.ty = CType.ctxPtr ∨
          (d.name = "test_window" ∧ p.name = "bg" ∧ p.ty = ⟨["float"], 0⟩
            ∧ p.array = some 3 ∧ p.ty.isConst = false ∧ p.mutableByCallee = true)) := by
  decide

end Demo
